import Mathlib

/-!
Verification development for the eth-contract-tracker repository.

The source is a small Python program (src/contract_analyzer.py, src/main.py)
that inspects the on-chain history of an ERC-20 contract and flags recipient
wallets that look like pre-allocated bonus wallets.  This file gives a shallow
embedding of the data model and of every method of the ContractAnalyzer class,
with machine floats modelled as rationals, pandas DataFrames as lists of
records, the Etherscan provider as an explicit Chain value, and the implicit
instance state of the analyzer object as an AnalyzerState record threaded
through each method.
-/

namespace EthTracker

/-- Native-coin transaction record, one row of the txlist reply.  Fields mirror
the columns the code reads: hash, from, to, value, timeStamp, blockNumber.
The value field is held in minor units (Wei) as delivered by the provider;
unit conversion happens in get_eth_transactions, as in the source. -/
structure Tx where
  hash : String
  fromAddr : String
  toAddr : String
  value : ℚ
  timeStamp : ℤ
  blockNumber : ℤ
deriving DecidableEq

/-- ERC-20 transfer record, one row of the tokentx reply.  The tokenDecimal
field is optional because the code guards on the presence of that column; the
contractAddress field records which token contract the transfer belongs to,
which the provider uses to answer contract-filtered queries. -/
structure TokenTransfer where
  hash : String
  fromAddr : String
  toAddr : String
  value : ℚ
  timeStamp : ℤ
  tokenDecimal : Option ℕ
  contractAddress : String
deriving DecidableEq

/-- Reply record of the getcontractcreation endpoint. -/
structure CreationRecord where
  contractCreator : String
  txHash : String
deriving DecidableEq

/-- The blockchain data provider, modelled as a total map from each query the
code can issue to the reply envelope.  Every endpoint carries a status string
(the envelope field the code checks against the string 1) plus its payload.
The tokentx endpoint is modelled from a global ledger of token transfers: the
provider answers a (contractaddress, optional address) query with the ledger
rows of that token, optionally restricted to rows involving the address. -/
structure Chain where
  creationStatus : String → String
  creationResult : String → List CreationRecord
  txlistStatus : String → String
  txlistResult : String → List Tx
  tokentxStatus : String → Option String → String
  tokenLedger : List TokenTransfer
  supplyStatus : String → String
  supplyResult : String → Option ℚ

/-- Instance state of a ContractAnalyzer object: the fields assigned in
the constructor and mutated by the methods. -/
structure AnalyzerState where
  contract_address : String
  creation_tx : Option CreationRecord
  deployer_address : Option String
  creation_timestamp : Option ℤ
  total_supply : Option ℚ
deriving DecidableEq

/-- One row of the suspicious-wallet report built by find_suspicious_wallets.
The source formats creation_time through strftime; the record here keeps the
underlying unix timestamp, since the formatting is presentation only. -/
structure Finding where
  wallet : String
  token_amount : ℚ
  percentage : ℚ
  tx_count : ℕ
  creation_time : ℤ
deriving DecidableEq

/-- ASCII lowercasing of one character, the effect of the Python lower method
on the hexadecimal address strings the program handles. -/
def lowerChar (c : Char) : Char :=
  if c.isUpper then Char.ofNat (c.toNat + 32) else c

/-- ASCII lowercasing of an address string. -/
def lowerStr (s : String) : String :=
  ⟨s.data.map lowerChar⟩

/-- Constructor of ContractAnalyzer: lowercases the contract address and
leaves every memoized field unset. -/
def initAnalyzer (contract_address : String) : AnalyzerState :=
  { contract_address := lowerStr contract_address
    creation_tx := none
    deployer_address := none
    creation_timestamp := none
    total_supply := none }

/-- Python truthiness of an optional string field (None and the empty string
are falsy). -/
def strTruthy : Option String → Bool
  | none => false
  | some s => decide (s ≠ "")

/-- Python truthiness of an optional integer field (None and 0 are falsy). -/
def intTruthy : Option ℤ → Bool
  | none => false
  | some n => decide (n ≠ 0)

/-- Python truthiness of an optional numeric field (None and 0.0 are falsy). -/
def ratTruthy : Option ℚ → Bool
  | none => false
  | some q => decide (q ≠ 0)

/-- Embedding of the method _make_api_request for the list-valued endpoints:
when the reply envelope carries status 1 the payload is returned, otherwise
the empty list.  The method never raises on a failure status. -/
def make_api_request {α : Type} (status : String) (result : List α) : List α :=
  if status = "1" then result else []

/-- Embedding of _make_api_request for the scalar tokensupply endpoint, whose
payload is a numeric string; none stands for the empty payload, which is falsy
at the call site exactly like the empty list of the other endpoints. -/
def make_api_request_scalar {α : Type} (status : String) (result : Option α) : Option α :=
  if status = "1" then result else none

/-- Embedding of get_contract_creation_tx: queries the creation-lookup
endpoint for the contract; on a non-empty reply stores the first record and
the deployer address in the state and returns the record, otherwise leaves
the state untouched and returns none. -/
def get_contract_creation_tx (chain : Chain) (s : AnalyzerState) :
    AnalyzerState × Option CreationRecord :=
  match (make_api_request (chain.creationStatus s.contract_address)
      (chain.creationResult s.contract_address)).head? with
  | some r =>
      ({ s with creation_tx := some r, deployer_address := some r.contractCreator }, some r)
  | none => (s, none)

/-- Embedding of get_eth_transactions: fetches the txlist reply for a wallet
and converts each value from Wei to Ether, dividing by the literal 1e18 of the
source. -/
def get_eth_transactions (chain : Chain) (wallet : String) : List Tx :=
  (make_api_request (chain.txlistStatus wallet) (chain.txlistResult wallet)).map
    (fun t => { t with value := t.value / 1000000000000000000 })

/-- Raw tokentx reply for a (contractaddress, optional wallet) query: the
provider filters its ledger to transfers of that token contract, and when a
wallet is given to transfers involving that wallet, then wraps the rows in
the status envelope handled by _make_api_request. -/
def tokentxFetch (chain : Chain) (c : String) (w : Option String) : List TokenTransfer :=
  make_api_request (chain.tokentxStatus c w)
    (chain.tokenLedger.filter (fun t =>
      decide (t.contractAddress = c) &&
      (match w with
       | none => true
       | some a => decide (t.fromAddr = a) || decide (t.toAddr = a))))

/-- Embedding of get_token_transfers: fetches the tokentx reply and, when it
is non-empty, scales every value by the decimal count read from the first
record of the batch, defaulting to 18 when the decimal column is absent. -/
def get_token_transfers (chain : Chain) (c : String) (w : Option String) :
    List TokenTransfer :=
  match (tokentxFetch chain c w).head? with
  | none => []
  | some t0 =>
      (tokentxFetch chain c w).map
        (fun t => { t with value := t.value / 10 ^ (t0.tokenDecimal.getD 18) })

/-- Raw tokensupply reply after the status envelope is handled. -/
def supplyFetch (chain : Chain) (c : String) : Option ℚ :=
  make_api_request_scalar (chain.supplyStatus c) (chain.supplyResult c)

/-- Embedding of get_token_supply: on a truthy reply stores and returns the
supply scaled by 18 decimals unconditionally; otherwise returns none and
leaves the state untouched. -/
def get_token_supply (chain : Chain) (s : AnalyzerState) :
    AnalyzerState × Option ℚ :=
  match supplyFetch chain s.contract_address with
  | some raw =>
      ({ s with total_supply := some (raw / 1000000000000000000) },
       some (raw / 1000000000000000000))
  | none => (s, none)

/-- Embedding of get_wallet_creation_time: the timestamp and block number of
the first (earliest, the query asks for ascending order) native transaction
of the wallet, or the pair of nones when the wallet has no native history. -/
def get_wallet_creation_time (chain : Chain) (wallet : String) :
    Option ℤ × Option ℤ :=
  match (get_eth_transactions chain wallet).head? with
  | some t => (some t.timeStamp, some t.blockNumber)
  | none => (none, none)

/-- Opening step of analyze_funding_transactions: fetch the creation
transaction when the deployer address field is falsy, as the first two lines
of the method do. -/
def resolveDeployer (chain : Chain) (s0 : AnalyzerState) : AnalyzerState :=
  if strTruthy s0.deployer_address then s0 else (get_contract_creation_tx chain s0).1

/-- Main body of analyze_funding_transactions, run after the deployer
resolution step: bails out with an empty result if the deployer is still not
truthy, filters the deployer native history to incoming transfers, and sets
the creation timestamp when a funding transaction matches the recorded
creation transaction hash. -/
def fundingStep (chain : Chain) (s : AnalyzerState) : AnalyzerState × List Tx :=
  match s.deployer_address with
  | none => (s, [])
  | some dep =>
      if dep = "" then (s, [])
      else
        let funding_txs :=
          (get_eth_transactions chain dep).filter (fun t => decide (t.toAddr = lowerStr dep))
        if funding_txs = [] then (s, funding_txs)
        else
          match s.creation_tx with
          | none => (s, funding_txs)
          | some ctx =>
              match (funding_txs.filter (fun t => decide (t.hash = ctx.txHash))).head? with
              | none => (s, funding_txs)
              | some tx => ({ s with creation_timestamp := some tx.timeStamp }, funding_txs)

/-- Embedding of analyze_funding_transactions as the two steps above. -/
def analyze_funding_transactions (chain : Chain) (s0 : AnalyzerState) :
    AnalyzerState × List Tx :=
  fundingStep chain (resolveDeployer chain s0)

/-- First-occurrence deduplication, the semantics of the pandas unique
function used to list the recipient wallets. -/
def uniqueFirstAux : List String → List String → List String
  | [], _ => []
  | a :: l, seen => if a ∈ seen then uniqueFirstAux l seen else a :: uniqueFirstAux l (a :: seen)

/-- Unique elements of a list in order of first occurrence. -/
def uniqueFirst (l : List String) : List String :=
  uniqueFirstAux l []

/-- Embedding of analyze_token_distribution, which only fetches and prints the
transfer list of the contract and touches no state. -/
def analyze_token_distribution (chain : Chain) (s : AnalyzerState) : List TokenTransfer :=
  get_token_transfers chain s.contract_address none

/-- Embedding of analyze_recipient_wallets, which fetches the per-recipient
histories and prints their sizes, touching no state. -/
def analyze_recipient_wallets (chain : Chain) (s : AnalyzerState) :
    List (String × List Tx × List TokenTransfer) :=
  (uniqueFirst ((get_token_transfers chain s.contract_address none).map (·.toAddr))).map
    (fun w => (w, get_eth_transactions chain w, get_token_transfers chain s.contract_address (some w)))

/-- Python round applied to the percentage: round half to even. -/
def pyRound (q : ℚ) : ℤ :=
  let f := ⌊q⌋
  let r := q - f
  if r < 1 / 2 then f
  else if 1 / 2 < r then f + 1
  else if f % 2 = 0 then f
  else f + 1

/-- Round-amount predicate of find_suspicious_wallets: the token amount is at
least one million, or the percentage is within 0.1 of 1, or the percentage is
within 0.1 of its nearest integer. -/
def is_round (token_amount percentage : ℚ) : Bool :=
  decide (1000000 ≤ token_amount) ||
  decide (|percentage - 1| < 1 / 10) ||
  decide (|percentage - (pyRound percentage : ℚ)| < 1 / 10)

/-- Low-activity predicate of find_suspicious_wallets: strictly fewer than 5
native transactions and strictly fewer than 3 token transactions. -/
def low_activity (nativeCount tokenCount : ℕ) : Bool :=
  decide (nativeCount < 5) && decide (tokenCount < 3)

/-- Number of native transactions fetched for a wallet. -/
def nativeTxCount (chain : Chain) (wallet : String) : ℕ :=
  (get_eth_transactions chain wallet).length

/-- Number of token transactions fetched for a wallet, the tokentx query being
keyed by the analyzed contract address. -/
def tokenTxCount (chain : Chain) (c : String) (wallet : String) : ℕ :=
  (get_token_transfers chain c (some wallet)).length

/-- Token amount received by a wallet: the sum of the scaled values of the
fetched transfers whose recipient column equals the wallet. -/
def walletTokenAmount (chain : Chain) (c : String) (wallet : String) : ℚ :=
  (((get_token_transfers chain c (some wallet)).filter
      (fun t => decide (t.toAddr = wallet))).map (·.value)).sum

/-- Per-wallet body of the find_suspicious_wallets loop: skips the wallet when
its creation timestamp is falsy (None or 0) or farther than the window from
the deployment timestamp, and otherwise reports it exactly when the round
amount and low activity predicates both hold. -/
def scoreWallet (chain : Chain) (c : String) (supply : ℚ) (ts : ℤ)
    (time_window : ℤ) (wallet : String) : Option Finding :=
  match (get_wallet_creation_time chain wallet).1 with
  | none => none
  | some ct =>
      if ct ≠ 0 ∧ |ct - ts| ≤ time_window then
        let token_amount := walletTokenAmount chain c wallet
        let percentage := token_amount / supply * 100
        if is_round token_amount percentage &&
            low_activity (nativeTxCount chain wallet) (tokenTxCount chain c wallet) then
          some { wallet := wallet
                 token_amount := token_amount
                 percentage := percentage
                 tx_count := nativeTxCount chain wallet
                 creation_time := ct }
        else none
      else none

/-- First resolution step of find_suspicious_wallets: fetch the supply when
the total_supply field is falsy. -/
def supplyResolveStep (chain : Chain) (s0 : AnalyzerState) : AnalyzerState :=
  if ratTruthy s0.total_supply then s0 else (get_token_supply chain s0).1

/-- Second resolution step of find_suspicious_wallets: run the funding
analysis when the creation_timestamp field is falsy. -/
def timestampResolveStep (chain : Chain) (s1 : AnalyzerState) : AnalyzerState :=
  if intTruthy s1.creation_timestamp then s1 else (analyze_funding_transactions chain s1).1

/-- Resolution prelude of find_suspicious_wallets: fetch the supply if the
total_supply field is falsy, then run the funding analysis if the
creation_timestamp field is falsy. -/
def resolveForScoring (chain : Chain) (s0 : AnalyzerState) : AnalyzerState :=
  timestampResolveStep chain (supplyResolveStep chain s0)

/-- Embedding of find_suspicious_wallets: after the resolution prelude,
returns the empty report when the supply or the deployment timestamp is still
falsy or when the contract has no token transfers, and otherwise scores every
unique recipient of the transfer list. -/
def find_suspicious_wallets (chain : Chain) (s0 : AnalyzerState)
    (time_window : ℤ) : AnalyzerState × List Finding :=
  let s2 := resolveForScoring chain s0
  match s2.total_supply, s2.creation_timestamp with
  | some supply, some ts =>
      if supply = 0 ∨ ts = 0 then (s2, [])
      else
        let token_txs := get_token_transfers chain s2.contract_address none
        if token_txs = [] then (s2, [])
        else
          (s2, (uniqueFirst (token_txs.map (·.toAddr))).filterMap
            (scoreWallet chain s2.contract_address supply ts time_window))
  | _, _ => (s2, [])

/-!
Helper lemmas shared by the claim theorems below.
-/

theorem scoreWallet_some_spec {chain : Chain} {c : String} {sup : ℚ} {ts w : ℤ}
    {wallet : String} {f : Finding} (h : scoreWallet chain c sup ts w wallet = some f) :
    f.wallet = wallet ∧ f.tx_count = nativeTxCount chain wallet ∧
    ∃ ct, (get_wallet_creation_time chain wallet).1 = some ct ∧ ct ≠ 0 ∧
      |ct - ts| ≤ w ∧ f.creation_time = ct ∧
      nativeTxCount chain wallet < 5 ∧ tokenTxCount chain c wallet < 3 ∧
      f.token_amount = walletTokenAmount chain c wallet ∧
      f.percentage = walletTokenAmount chain c wallet / sup * 100 := by
  simp only [scoreWallet] at h
  cases hct : (get_wallet_creation_time chain wallet).1 with
  | none => rw [hct] at h; exact absurd h (by simp)
  | some ct =>
      rw [hct] at h
      dsimp only [] at h
      by_cases hcond : ct ≠ 0 ∧ |ct - ts| ≤ w
      · rw [if_pos hcond] at h
        by_cases hpred : (is_round (walletTokenAmount chain c wallet)
            (walletTokenAmount chain c wallet / sup * 100) &&
            low_activity (nativeTxCount chain wallet) (tokenTxCount chain c wallet)) = true
        · rw [if_pos hpred] at h
          have hf := (Option.some.injEq _ _).mp h
          have hlow := (Bool.and_eq_true _ _).mp hpred
          have h5 : nativeTxCount chain wallet < 5 ∧ tokenTxCount chain c wallet < 3 := by
            have := hlow.2
            simp [low_activity] at this
            exact this
          subst hf
          exact ⟨rfl, rfl, ct, rfl, hcond.1, hcond.2, rfl, h5.1, h5.2, rfl, rfl⟩
        · rw [if_neg hpred] at h; exact absurd h (by simp)
      · rw [if_neg hcond] at h; exact absurd h (by simp)

theorem find_suspicious_fst (chain : Chain) (s : AnalyzerState) (w : ℤ) :
    (find_suspicious_wallets chain s w).1 = resolveForScoring chain s := by
  simp only [find_suspicious_wallets]
  split <;> first
    | rfl
    | (split <;> first
        | rfl
        | (split <;> rfl))

theorem mem_find_suspicious {chain : Chain} {s : AnalyzerState} {w : ℤ} {f : Finding}
    (h : f ∈ (find_suspicious_wallets chain s w).2) :
    ∃ sup ts wallet, (resolveForScoring chain s).total_supply = some sup ∧
      (resolveForScoring chain s).creation_timestamp = some ts ∧
      scoreWallet chain (resolveForScoring chain s).contract_address sup ts w wallet = some f := by
  simp only [find_suspicious_wallets] at h
  cases hsup : (resolveForScoring chain s).total_supply with
  | none => rw [hsup] at h; simp at h
  | some sup =>
      cases hts : (resolveForScoring chain s).creation_timestamp with
      | none => rw [hsup, hts] at h; simp at h
      | some ts =>
          rw [hsup, hts] at h
          dsimp only [] at h
          by_cases hz : sup = 0 ∨ ts = 0
          · rw [if_pos hz] at h; simp at h
          · rw [if_neg hz] at h
            by_cases he : get_token_transfers chain (resolveForScoring chain s).contract_address none = []
            · rw [if_pos he] at h; simp at h
            · rw [if_neg he] at h
              simp only [List.mem_filterMap] at h
              obtain ⟨wallet, _, hw⟩ := h
              exact ⟨sup, ts, wallet, rfl, rfl, hw⟩


theorem get_contract_creation_tx_fields (chain : Chain) (s : AnalyzerState) :
    ((get_contract_creation_tx chain s).1).contract_address = s.contract_address ∧
    ((get_contract_creation_tx chain s).1).creation_timestamp = s.creation_timestamp ∧
    ((get_contract_creation_tx chain s).1).total_supply = s.total_supply := by
  unfold get_contract_creation_tx
  cases (make_api_request (chain.creationStatus s.contract_address)
      (chain.creationResult s.contract_address)).head? <;> simp

theorem get_token_supply_fields (chain : Chain) (s : AnalyzerState) :
    ((get_token_supply chain s).1).contract_address = s.contract_address ∧
    ((get_token_supply chain s).1).creation_timestamp = s.creation_timestamp ∧
    ((get_token_supply chain s).1).deployer_address = s.deployer_address ∧
    ((get_token_supply chain s).1).creation_tx = s.creation_tx := by
  unfold get_token_supply
  cases supplyFetch chain s.contract_address <;> simp

theorem fundingStep_fields (chain : Chain) (s : AnalyzerState) :
    ((fundingStep chain s).1).contract_address = s.contract_address ∧
    ((fundingStep chain s).1).deployer_address = s.deployer_address ∧
    ((fundingStep chain s).1).creation_tx = s.creation_tx ∧
    ((fundingStep chain s).1).total_supply = s.total_supply := by
  simp only [fundingStep]
  repeat' split
  all_goals simp

theorem fundingStep_falsy {chain : Chain} {s : AnalyzerState}
    (h : strTruthy s.deployer_address = false) : fundingStep chain s = (s, []) := by
  cases hd : s.deployer_address with
  | none => simp [fundingStep, hd]
  | some dep =>
      rw [hd] at h
      simp [strTruthy] at h
      simp [fundingStep, hd, h]

theorem gcct_of_head {chain : Chain} {s : AnalyzerState} {r : CreationRecord}
    (h : (make_api_request (chain.creationStatus s.contract_address)
      (chain.creationResult s.contract_address)).head? = some r) :
    get_contract_creation_tx chain s =
      ({ s with creation_tx := some r, deployer_address := some r.contractCreator }, some r) := by
  unfold get_contract_creation_tx
  rw [h]

theorem gcct_of_none {chain : Chain} {s : AnalyzerState}
    (h : (make_api_request (chain.creationStatus s.contract_address)
      (chain.creationResult s.contract_address)).head? = none) :
    get_contract_creation_tx chain s = (s, none) := by
  unfold get_contract_creation_tx
  rw [h]

theorem get_contract_creation_tx_idem (chain : Chain) (s : AnalyzerState) :
    get_contract_creation_tx chain ((get_contract_creation_tx chain s).1) =
      get_contract_creation_tx chain s := by
  cases h : (make_api_request (chain.creationStatus s.contract_address)
      (chain.creationResult s.contract_address)).head? with
  | none =>
      rw [gcct_of_none h]
      exact gcct_of_none h
  | some r =>
      rw [gcct_of_head h]
      exact @gcct_of_head chain
        { s with creation_tx := some r, deployer_address := some r.contractCreator } r h

theorem get_token_supply_idem (chain : Chain) (s : AnalyzerState) :
    get_token_supply chain ((get_token_supply chain s).1) = get_token_supply chain s := by
  unfold get_token_supply
  cases h : supplyFetch chain s.contract_address <;> simp [h]

/-- Proof auxiliary: the control decisions and outputs of fundingStep depend
only on the deployer and creation-transaction fields of the state. -/
def fundingOutcome (chain : Chain) (dep? : Option String) (ctx? : Option CreationRecord) :
    Option ℤ × List Tx :=
  match dep? with
  | none => (none, [])
  | some dep =>
      if dep = "" then (none, [])
      else
        let funding_txs :=
          (get_eth_transactions chain dep).filter (fun t => decide (t.toAddr = lowerStr dep))
        if funding_txs = [] then (none, funding_txs)
        else
          match ctx? with
          | none => (none, funding_txs)
          | some ctx =>
              match (funding_txs.filter (fun t => decide (t.hash = ctx.txHash))).head? with
              | none => (none, funding_txs)
              | some tx => (some tx.timeStamp, funding_txs)

theorem fundingStep_eq_outcome (chain : Chain) (s : AnalyzerState) :
    fundingStep chain s =
      ((match (fundingOutcome chain s.deployer_address s.creation_tx).1 with
        | some v => { s with creation_timestamp := some v }
        | none => s),
       (fundingOutcome chain s.deployer_address s.creation_tx).2) := by
  simp only [fundingStep, fundingOutcome]
  repeat' split
  all_goals simp_all

theorem fundingStep_idem (chain : Chain) (s : AnalyzerState) :
    fundingStep chain ((fundingStep chain s).1) = fundingStep chain s := by
  have hfields := fundingStep_fields chain s
  have h2 := fundingStep_eq_outcome chain ((fundingStep chain s).1)
  rw [hfields.2.1, hfields.2.2.1] at h2
  rw [h2, fundingStep_eq_outcome chain s]
  cases ho : (fundingOutcome chain s.deployer_address s.creation_tx).1 with
  | none => simp [ho]
  | some v => simp [ho]

theorem resolveDeployer_truthy {chain : Chain} {s0 : AnalyzerState}
    (h : strTruthy s0.deployer_address = true) : resolveDeployer chain s0 = s0 := by
  simp [resolveDeployer, h]

theorem resolveDeployer_falsy {chain : Chain} {s0 : AnalyzerState}
    (h : strTruthy s0.deployer_address = false) :
    resolveDeployer chain s0 = (get_contract_creation_tx chain s0).1 := by
  simp [resolveDeployer, h]

theorem resolveDeployer_fix (chain : Chain) (s : AnalyzerState) :
    resolveDeployer chain ((fundingStep chain (resolveDeployer chain s)).1) =
      (fundingStep chain (resolveDeployer chain s)).1 := by
  by_cases ht0 : strTruthy s.deployer_address = true
  · rw [resolveDeployer_truthy ht0]
    apply resolveDeployer_truthy
    rw [(fundingStep_fields chain s).2.1]
    exact ht0
  · have ht0' := Bool.eq_false_iff.mpr ht0
    rw [resolveDeployer_falsy ht0']
    cases hr : (make_api_request (chain.creationStatus s.contract_address)
        (chain.creationResult s.contract_address)).head? with
    | none =>
        rw [gcct_of_none hr]
        show resolveDeployer chain ((fundingStep chain s).1) = (fundingStep chain s).1
        rw [fundingStep_falsy ht0']
        show resolveDeployer chain s = s
        rw [resolveDeployer_falsy ht0', gcct_of_none hr]
    | some rec =>
        rw [gcct_of_head hr]
        show resolveDeployer chain ((fundingStep chain (AnalyzerState.mk s.contract_address
            (some rec) (some rec.contractCreator) s.creation_timestamp s.total_supply)).1) =
          (fundingStep chain (AnalyzerState.mk s.contract_address (some rec)
            (some rec.contractCreator) s.creation_timestamp s.total_supply)).1
        by_cases hcr : strTruthy (some rec.contractCreator) = true
        · apply resolveDeployer_truthy
          rw [(fundingStep_fields chain (AnalyzerState.mk s.contract_address (some rec)
            (some rec.contractCreator) s.creation_timestamp s.total_supply)).2.1]
          exact hcr
        · have hcr' := Bool.eq_false_iff.mpr hcr
          have hUf : strTruthy (AnalyzerState.mk s.contract_address (some rec)
              (some rec.contractCreator) s.creation_timestamp s.total_supply).deployer_address
              = false := hcr'
          rw [fundingStep_falsy hUf]
          show resolveDeployer chain (AnalyzerState.mk s.contract_address (some rec)
              (some rec.contractCreator) s.creation_timestamp s.total_supply) =
            AnalyzerState.mk s.contract_address (some rec) (some rec.contractCreator)
              s.creation_timestamp s.total_supply
          rw [resolveDeployer_falsy hUf, @gcct_of_head chain (AnalyzerState.mk s.contract_address
            (some rec) (some rec.contractCreator) s.creation_timestamp s.total_supply) rec hr]

theorem analyze_funding_idem (chain : Chain) (s : AnalyzerState) :
    analyze_funding_transactions chain ((analyze_funding_transactions chain s).1) =
      analyze_funding_transactions chain s := by
  unfold analyze_funding_transactions
  rw [resolveDeployer_fix]
  exact fundingStep_idem chain (resolveDeployer chain s)

theorem resolveForScoring_resolved {chain : Chain} {s : AnalyzerState}
    (h1 : ratTruthy s.total_supply = true) (h2 : intTruthy s.creation_timestamp = true) :
    resolveForScoring chain s = s := by
  simp [resolveForScoring, supplyResolveStep, timestampResolveStep, h1, h2]

theorem fundingStep_ts_spec (chain : Chain) (s : AnalyzerState) :
    ((fundingStep chain s).1).creation_timestamp = s.creation_timestamp ∨
    ∃ dep ctx tx, s.deployer_address = some dep ∧ s.creation_tx = some ctx ∧
      tx ∈ (get_eth_transactions chain dep).filter (fun t => decide (t.toAddr = lowerStr dep)) ∧
      tx.hash = ctx.txHash ∧
      ((fundingStep chain s).1).creation_timestamp = some tx.timeStamp := by
  simp only [fundingStep]
  repeat' split
  all_goals try (left; rfl)
  all_goals right
  rename_i x1 dep hdep hne hfun x2 ctx hctx x3 tx htx
  have hmem2 : tx ∈ List.filter (fun t => decide (t.hash = ctx.txHash))
      (List.filter (fun t => decide (t.toAddr = lowerStr dep)) (get_eth_transactions chain dep)) := by
    cases hl : List.filter (fun t => decide (t.hash = ctx.txHash))
        (List.filter (fun t => decide (t.toAddr = lowerStr dep)) (get_eth_transactions chain dep)) with
    | nil => rw [hl] at htx; exact absurd htx (by simp)
    | cons a t =>
        rw [hl] at htx
        simp only [List.head?_cons, Option.some.injEq] at htx
        rw [← htx]
        exact List.mem_cons_self a t
  have hsplit := List.mem_filter.mp hmem2
  refine ⟨dep, ctx, tx, hdep, hctx, hsplit.1, ?_, rfl⟩
  simpa using hsplit.2

theorem get_token_transfers_contract {chain : Chain} {c : String} {w : Option String}
    {t : TokenTransfer} (h : t ∈ get_token_transfers chain c w) : t.contractAddress = c := by
  simp only [get_token_transfers] at h
  cases hh : (tokentxFetch chain c w).head? with
  | none => rw [hh] at h; simp at h
  | some t0 =>
      rw [hh] at h
      simp only [List.mem_map] at h
      obtain ⟨t1, ht1, hmap⟩ := h
      have hc : t1.contractAddress = c := by
        simp only [tokentxFetch, make_api_request] at ht1
        by_cases hs : chain.tokentxStatus c w = "1"
        · rw [if_pos hs] at ht1
          have := (List.mem_filter.mp ht1).2
          simp at this
          exact this.1
        · rw [if_neg hs] at ht1
          simp at ht1
      rw [← hmap]
      exact hc

/-!
Concrete chains used by the witnesses and counterexamples: a token contract c
deployed by wallet d, funded by the creation transaction h0 at time 1000, that
sent 10000 tokens (one percent of the one-million supply) to the fresh wallet
w; the wallet w additionally appears in six transfers of an unrelated token
contract x.
-/

def exTransfer : TokenTransfer :=
  { hash := "t1", fromAddr := "c", toAddr := "w", value := 10000, timeStamp := 1500,
    tokenDecimal := some 0, contractAddress := "c" }

def exOtherTransfer (h : String) : TokenTransfer :=
  { hash := h, fromAddr := "q", toAddr := "w", value := 1, timeStamp := 2000,
    tokenDecimal := some 0, contractAddress := "x" }

def exFundingTx : Tx :=
  { hash := "h0", fromAddr := "f", toAddr := "d", value := 1000000000000000000,
    timeStamp := 1000, blockNumber := 1 }

def exWalletTx : Tx :=
  { hash := "hw", fromAddr := "f", toAddr := "w", value := 1000000000000000000,
    timeStamp := 1200, blockNumber := 2 }

def exChain : Chain :=
  { creationStatus := fun _ => "1"
    creationResult := fun c => if c = "c" then [{ contractCreator := "d", txHash := "h0" }] else []
    txlistStatus := fun _ => "1"
    txlistResult := fun a => if a = "d" then [exFundingTx] else if a = "w" then [exWalletTx] else []
    tokentxStatus := fun _ _ => "1"
    tokenLedger := [exTransfer, exOtherTransfer "x0", exOtherTransfer "x1", exOtherTransfer "x2",
      exOtherTransfer "x3", exOtherTransfer "x4", exOtherTransfer "x5"]
    supplyStatus := fun _ => "1"
    supplyResult := fun c => if c = "c" then some 1000000000000000000000000 else none }

def exState1 : AnalyzerState :=
  { contract_address := "c", creation_tx := none, deployer_address := none,
    creation_timestamp := none, total_supply := some 1000000 }

def exState2 : AnalyzerState :=
  { contract_address := "c", creation_tx := some { contractCreator := "d", txHash := "h0" },
    deployer_address := some "d", creation_timestamp := some 1000,
    total_supply := some 1000000 }

def exFinding : Finding :=
  { wallet := "w", token_amount := 10000, percentage := 1, tx_count := 1, creation_time := 1200 }

theorem exFunding : analyze_funding_transactions exChain exState1 =
    (exState2, [{ exFundingTx with value := 1 }]) := by
  simp [analyze_funding_transactions, resolveDeployer, fundingStep, exState1, exState2,
    strTruthy, get_contract_creation_tx, make_api_request, exChain, get_eth_transactions,
    exFundingTx, lowerStr, lowerChar, List.filter] <;> norm_num

theorem exResolve : resolveForScoring exChain (initAnalyzer "c") = exState2 := by
  simp [resolveForScoring, supplyResolveStep, timestampResolveStep, initAnalyzer, lowerStr, lowerChar, ratTruthy, intTruthy,
    get_token_supply, supplyFetch, make_api_request_scalar, exChain,
    analyze_funding_transactions, resolveDeployer, fundingStep, strTruthy,
    get_contract_creation_tx, make_api_request, get_eth_transactions, exFundingTx,
    List.filter, exState2] <;> norm_num

theorem exScore : scoreWallet exChain "c" 1000000 1000 604800 "w" = some exFinding := by
  simp [scoreWallet, get_wallet_creation_time, get_eth_transactions, make_api_request,
    exChain, exWalletTx, walletTokenAmount, get_token_transfers, tokentxFetch,
    exTransfer, exOtherTransfer, List.filter, is_round, pyRound, low_activity,
    nativeTxCount, tokenTxCount, exFinding] <;> norm_num

theorem exTokenTxs : get_token_transfers exChain "c" none = [exTransfer] := by
  simp [get_token_transfers, tokentxFetch, make_api_request, exChain, exTransfer,
    exOtherTransfer, List.filter] <;> norm_num

theorem exFindings :
    (find_suspicious_wallets exChain (initAnalyzer "c") 604800).2 = [exFinding] := by
  simp only [find_suspicious_wallets, exResolve, exState2]
  norm_num [exTokenTxs, exTransfer, uniqueFirst, uniqueFirstAux, List.filterMap, exScore]

/-- Provider that reports a failure status on every query kind. -/
def emptyChain : Chain :=
  { creationStatus := fun _ => "0"
    creationResult := fun _ => []
    txlistStatus := fun _ => "0"
    txlistResult := fun _ => []
    tokentxStatus := fun _ _ => "0"
    tokenLedger := []
    supplyStatus := fun _ => "0"
    supplyResult := fun _ => none }

theorem emptyResolve : resolveForScoring emptyChain (initAnalyzer "c") = initAnalyzer "c" := by
  simp [resolveForScoring, supplyResolveStep, timestampResolveStep, initAnalyzer, lowerStr, lowerChar, ratTruthy, intTruthy,
    get_token_supply, supplyFetch, make_api_request_scalar, emptyChain,
    analyze_funding_transactions, resolveDeployer, fundingStep, strTruthy,
    get_contract_creation_tx, make_api_request]

theorem supplyResolveStep_ts (chain : Chain) (s : AnalyzerState) :
    (supplyResolveStep chain s).creation_timestamp = s.creation_timestamp := by
  unfold supplyResolveStep
  split
  · rfl
  · exact (get_token_supply_fields chain s).2.1

theorem analyze_funding_ts_spec (chain : Chain) (s : AnalyzerState) :
    ((analyze_funding_transactions chain s).1).creation_timestamp = s.creation_timestamp ∨
    ∃ dep ctx tx,
      ((analyze_funding_transactions chain s).1).deployer_address = some dep ∧
      ((analyze_funding_transactions chain s).1).creation_tx = some ctx ∧
      tx ∈ (get_eth_transactions chain dep).filter (fun t => decide (t.toAddr = lowerStr dep)) ∧
      tx.hash = ctx.txHash ∧
      ((analyze_funding_transactions chain s).1).creation_timestamp = some tx.timeStamp := by
  unfold analyze_funding_transactions
  have hmts : (resolveDeployer chain s).creation_timestamp = s.creation_timestamp := by
    unfold resolveDeployer
    split
    · rfl
    · exact (get_contract_creation_tx_fields chain s).2.1
  rcases fundingStep_ts_spec chain (resolveDeployer chain s) with h | ⟨dep, ctx, tx, hdep, hctx, hmem, hhash, hts⟩
  · left
    rw [h, hmts]
  · right
    refine ⟨dep, ctx, tx, ?_, ?_, hmem, hhash, hts⟩
    · rw [(fundingStep_fields chain (resolveDeployer chain s)).2.1]
      exact hdep
    · rw [(fundingStep_fields chain (resolveDeployer chain s)).2.2.1]
      exact hctx

theorem resolveForScoring_ts_spec (chain : Chain) (s : AnalyzerState) :
    (resolveForScoring chain s).creation_timestamp = s.creation_timestamp ∨
    ∃ dep ctx tx,
      (resolveForScoring chain s).deployer_address = some dep ∧
      (resolveForScoring chain s).creation_tx = some ctx ∧
      tx ∈ (get_eth_transactions chain dep).filter (fun t => decide (t.toAddr = lowerStr dep)) ∧
      tx.hash = ctx.txHash ∧
      (resolveForScoring chain s).creation_timestamp = some tx.timeStamp := by
  unfold resolveForScoring timestampResolveStep
  split
  · left
    exact supplyResolveStep_ts chain s
  · rcases analyze_funding_ts_spec chain (supplyResolveStep chain s) with h | ⟨dep, ctx, tx, h1, h2, h3, h4, h5⟩
    · left
      rw [h]
      exact supplyResolveStep_ts chain s
    · right
      exact ⟨dep, ctx, tx, h1, h2, h3, h4, h5⟩

/-!
Claim theorems.  Each claim of the specification review is settled by exactly
one theorem below, with a witness or counterexample where required.
-/

/-- C1 (counterexample): the claim states that for tokenAmount 999,999 out of
a total supply of 100,000,000 the round-amount predicate yields NOT round with
all three sub-conditions failing.  In fact the percentage is 0.999999, the
sub-condition that the percentage lies within 0.1 of 1 holds, and the
predicate yields round. -/
theorem round_amount_999999_counterexample :
    is_round 999999 (999999 / 100000000 * 100) = true ∧
    |(999999 : ℚ) / 100000000 * 100 - 1| < 1 / 10 := by
  have habs : |(999999 : ℚ) / 100000000 * 100 - 1| < 1 / 10 := by
    rw [abs_sub_comm, abs_of_nonneg (by norm_num)]
    norm_num
  refine ⟨?_, habs⟩
  simp only [is_round, Bool.or_eq_true, decide_eq_true_eq]
  exact Or.inl (Or.inr habs)

/-- C1 (amended): the round-amount predicate used by find_suspicious_wallets
classifies a wallet as round iff at least one of the three sub-conditions
holds (tokenAmount at least 1,000,000, percentage within 0.1 of 1, percentage
within 0.1 of its nearest integer); for a recipient with tokenAmount 999,999
out of a total supply of 100,000,000 the percentage is 0.999999 and the
predicate yields round: the tokenAmount sub-condition fails but the
percentage-near-1 sub-condition holds. -/
theorem round_amount_predicate_amended :
    (∀ a p : ℚ, is_round a p = true ↔
      (1000000 ≤ a ∨ |p - 1| < 1 / 10 ∨ |p - (pyRound p : ℚ)| < 1 / 10)) ∧
    is_round 999999 (999999 / 100000000 * 100) = true ∧
    ¬ (1000000 ≤ (999999 : ℚ)) ∧
    |(999999 : ℚ) / 100000000 * 100 - 1| < 1 / 10 := by
  have habs : |(999999 : ℚ) / 100000000 * 100 - 1| < 1 / 10 := by
    rw [abs_sub_comm, abs_of_nonneg (by norm_num)]
    norm_num
  refine ⟨?_, ?_, by norm_num, habs⟩
  · intro a p
    simp [is_round, or_assoc]
  · simp only [is_round, Bool.or_eq_true, decide_eq_true_eq]
    exact Or.inl (Or.inr habs)

/-- Comparison definition for C2, following the words of the specification:
the full token history of a wallet across all tokens of the ledger. -/
def allTokenTransfersOf (chain : Chain) (w : String) : List TokenTransfer :=
  chain.tokenLedger.filter (fun t => decide (t.fromAddr = w) || decide (t.toAddr = w))

/-- C2 (counterexample): the claim states that the token transaction count
entering the low-activity predicate ranges over the wallet full token history
across all tokens.  On the example chain the wallet w has seven token
transfers across all tokens, so under the claim it would fail the strict
less-than-3 bound and never be flagged; the code counts only the transfers of
the analyzed contract (one) and flags it. -/
theorem token_count_scope_counterexample :
    (find_suspicious_wallets exChain (initAnalyzer "c") 604800).2 = [exFinding] ∧
    tokenTxCount exChain "c" "w" = 1 ∧
    (allTokenTransfersOf exChain "w").length = 7 ∧
    ¬ ((allTokenTransfersOf exChain "w").length < 3) := by
  refine ⟨exFindings, ?_, ?_⟩
  · simp [tokenTxCount, get_token_transfers, tokentxFetch, make_api_request, exChain,
      exTransfer, exOtherTransfer, List.filter]
  · constructor
    · simp [allTokenTransfersOf, exChain, exTransfer, exOtherTransfer, List.filter]
    · simp [allTokenTransfersOf, exChain, exTransfer, exOtherTransfer, List.filter]

/-- C2 (amended): for every recipient wallet W that find_suspicious_wallets
reports, the native count entering the low-activity predicate is the length of
the full native history reply for W, unfiltered, while the token count is the
length of the contract-filtered token transfer reply: every transfer entering
that count belongs to the analyzed contract, not to the wallet full
cross-token history. -/
theorem low_activity_counts_scope_amended :
    ∀ (chain : Chain) (c : String) (sup : ℚ) (ts w : ℤ) (wallet : String) (f : Finding),
      scoreWallet chain c sup ts w wallet = some f →
      f.tx_count = (get_eth_transactions chain wallet).length ∧
      (get_eth_transactions chain wallet).length =
        (make_api_request (chain.txlistStatus wallet) (chain.txlistResult wallet)).length ∧
      (get_eth_transactions chain wallet).length < 5 ∧
      (get_token_transfers chain c (some wallet)).length < 3 ∧
      ∀ t ∈ get_token_transfers chain c (some wallet), t.contractAddress = c := by
  intro chain c sup ts w wallet f h
  obtain ⟨hw, htx, ct, hcteq, hct0, hle, hcre, h5, h3, hamt, hpct⟩ := scoreWallet_some_spec h
  refine ⟨htx, ?_, h5, h3, fun t ht => get_token_transfers_contract ht⟩
  simp [get_eth_transactions]

/-- C2 witness: the amended statement instantiated on the example chain. -/
theorem low_activity_counts_scope_witness :
    exFinding.tx_count = (get_eth_transactions exChain "w").length ∧
    (get_eth_transactions exChain "w").length =
      (make_api_request (exChain.txlistStatus "w") (exChain.txlistResult "w")).length ∧
    (get_eth_transactions exChain "w").length < 5 ∧
    (get_token_transfers exChain "c" (some "w")).length < 3 ∧
    ∀ t ∈ get_token_transfers exChain "c" (some "w"), t.contractAddress = "c" :=
  low_activity_counts_scope_amended exChain "c" 1000000 1000 604800 "w" exFinding exScore

/-- C3: for every wallet whose native transaction reply is empty,
get_wallet_creation_time returns the unknown pair (none, none) rather than
raising, and find_suspicious_wallets never reports that wallet, regardless of
the token amount it received. -/
theorem no_native_history_excluded :
    ∀ (chain : Chain) (wallet : String),
      make_api_request (chain.txlistStatus wallet) (chain.txlistResult wallet) = [] →
      get_wallet_creation_time chain wallet = (none, none) ∧
      ∀ (s : AnalyzerState) (w : ℤ) (f : Finding),
        f ∈ (find_suspicious_wallets chain s w).2 → f.wallet ≠ wallet := by
  intro chain wallet h
  have heth : get_eth_transactions chain wallet = [] := by
    simp [get_eth_transactions, h]
  have hct : get_wallet_creation_time chain wallet = (none, none) := by
    simp [get_wallet_creation_time, heth]
  refine ⟨hct, ?_⟩
  intro s w f hf hwe
  obtain ⟨sup, ts, wallet0, hsup, hts, hscore⟩ := mem_find_suspicious hf
  obtain ⟨hw0, htx, ct, hcteq, hrest⟩ := scoreWallet_some_spec hscore
  have hwall : wallet0 = wallet := by rw [← hw0, hwe]
  rw [hwall, hct] at hcteq
  simp at hcteq

/-- C3 witness: the wallet z has no native history on the example chain. -/
theorem no_native_history_excluded_witness :
    get_wallet_creation_time exChain "z" = (none, none) ∧
    ∀ (s : AnalyzerState) (w : ℤ) (f : Finding),
      f ∈ (find_suspicious_wallets exChain s w).2 → f.wallet ≠ "z" :=
  no_native_history_excluded exChain "z" (by simp [exChain, make_api_request])

/-- C4: every wallet reported by find_suspicious_wallets has an estimated
creation time within time_window seconds of the resolved deployment timestamp
(so a wallet strictly farther away is never flagged), and a wallet at exactly
time_window distance passes the time check: if the round-amount and
low-activity predicates hold for it, it is reported. -/
theorem time_window_filter :
    (∀ (chain : Chain) (s : AnalyzerState) (w : ℤ) (f : Finding),
       f ∈ (find_suspicious_wallets chain s w).2 →
       ∃ ts ct, (resolveForScoring chain s).creation_timestamp = some ts ∧
         (get_wallet_creation_time chain f.wallet).1 = some ct ∧ |ct - ts| ≤ w) ∧
    (∀ (chain : Chain) (c : String) (sup : ℚ) (ts w : ℤ) (wallet : String) (ct : ℤ),
       (get_wallet_creation_time chain wallet).1 = some ct → ct ≠ 0 → |ct - ts| = w →
       (is_round (walletTokenAmount chain c wallet)
          (walletTokenAmount chain c wallet / sup * 100) &&
        low_activity (nativeTxCount chain wallet) (tokenTxCount chain c wallet)) = true →
       scoreWallet chain c sup ts w wallet =
         some { wallet := wallet, token_amount := walletTokenAmount chain c wallet,
                percentage := walletTokenAmount chain c wallet / sup * 100,
                tx_count := nativeTxCount chain wallet, creation_time := ct }) := by
  constructor
  · intro chain s w f hf
    obtain ⟨sup, ts, wallet0, hsup, hts, hscore⟩ := mem_find_suspicious hf
    obtain ⟨hw0, htx, ct, hcteq, hct0, hle, hrest⟩ := scoreWallet_some_spec hscore
    refine ⟨ts, ct, hts, ?_, hle⟩
    rw [hw0]
    exact hcteq
  · intro chain c sup ts w wallet ct hct hct0 heq hpred
    simp only [scoreWallet, hct]
    rw [if_pos ⟨hct0, le_of_eq heq⟩, if_pos hpred]

/-- C4 witness: membership on the example chain yields a creation time within
the window, and with the window set to the exact distance 200 the example
wallet is still scored. -/
theorem time_window_filter_witness :
    (∃ ts ct, (resolveForScoring exChain (initAnalyzer "c")).creation_timestamp = some ts ∧
      (get_wallet_creation_time exChain exFinding.wallet).1 = some ct ∧ |ct - ts| ≤ 604800) ∧
    scoreWallet exChain "c" 1000000 1000 200 "w" =
      some { wallet := "w", token_amount := walletTokenAmount exChain "c" "w",
             percentage := walletTokenAmount exChain "c" "w" / 1000000 * 100,
             tx_count := nativeTxCount exChain "w", creation_time := 1200 } :=
  ⟨time_window_filter.1 exChain (initAnalyzer "c") 604800 exFinding
      (by rw [exFindings]; exact List.mem_singleton.mpr rfl),
   time_window_filter.2 exChain "c" 1000000 1000 200 "w" 1200
     (by simp [get_wallet_creation_time, get_eth_transactions, make_api_request, exChain,
        exWalletTx])
     (by decide) (by decide)
     (by simp [walletTokenAmount, nativeTxCount, tokenTxCount, get_token_transfers,
        tokentxFetch, make_api_request, exChain, exTransfer, exOtherTransfer,
        get_eth_transactions, exWalletTx, List.filter, is_round, pyRound, low_activity]
          <;> norm_num)⟩

/-- C5: across every state-changing operation, the creation_timestamp field is
assigned only when the incoming-native-transaction set of the resolved
deployer contains a transaction whose hash equals the recorded creation
transaction hash, and the assigned value is that transaction timestamp; when
no such transaction exists the field keeps its previous value. -/
theorem creation_timestamp_invariant :
    (∀ (chain : Chain) (s : AnalyzerState),
       ((get_contract_creation_tx chain s).1).creation_timestamp = s.creation_timestamp) ∧
    (∀ (chain : Chain) (s : AnalyzerState),
       ((get_token_supply chain s).1).creation_timestamp = s.creation_timestamp) ∧
    (∀ (chain : Chain) (s : AnalyzerState),
       ((analyze_funding_transactions chain s).1).creation_timestamp ≠ s.creation_timestamp →
       ∃ dep ctx tx,
         ((analyze_funding_transactions chain s).1).deployer_address = some dep ∧
         ((analyze_funding_transactions chain s).1).creation_tx = some ctx ∧
         tx ∈ (get_eth_transactions chain dep).filter
           (fun t => decide (t.toAddr = lowerStr dep)) ∧
         tx.hash = ctx.txHash ∧
         ((analyze_funding_transactions chain s).1).creation_timestamp = some tx.timeStamp) ∧
    (∀ (chain : Chain) (s : AnalyzerState) (w : ℤ),
       ((find_suspicious_wallets chain s w).1).creation_timestamp ≠ s.creation_timestamp →
       ∃ dep ctx tx,
         ((find_suspicious_wallets chain s w).1).deployer_address = some dep ∧
         ((find_suspicious_wallets chain s w).1).creation_tx = some ctx ∧
         tx ∈ (get_eth_transactions chain dep).filter
           (fun t => decide (t.toAddr = lowerStr dep)) ∧
         tx.hash = ctx.txHash ∧
         ((find_suspicious_wallets chain s w).1).creation_timestamp = some tx.timeStamp) := by
  refine ⟨fun chain s => (get_contract_creation_tx_fields chain s).2.1,
    fun chain s => (get_token_supply_fields chain s).2.1, ?_, ?_⟩
  · intro chain s hne
    rcases analyze_funding_ts_spec chain s with h | hex
    · exact absurd h hne
    · exact hex
  · intro chain s w hne
    rw [find_suspicious_fst] at hne ⊢
    rcases resolveForScoring_ts_spec chain s with h | hex
    · exact absurd h hne
    · exact hex

/-- C5 witness: on the example chain the funding analysis assigns the
timestamp, and the matching funding transaction is exhibited. -/
theorem creation_timestamp_invariant_witness :
    ∃ dep ctx tx,
      ((analyze_funding_transactions exChain exState1).1).deployer_address = some dep ∧
      ((analyze_funding_transactions exChain exState1).1).creation_tx = some ctx ∧
      tx ∈ (get_eth_transactions exChain dep).filter
        (fun t => decide (t.toAddr = lowerStr dep)) ∧
      tx.hash = ctx.txHash ∧
      ((analyze_funding_transactions exChain exState1).1).creation_timestamp =
        some tx.timeStamp :=
  creation_timestamp_invariant.2.2.1 exChain exState1
    (by rw [exFunding]; simp [exState1, exState2])

/-- C6: when the total supply is still unresolved after the resolution step,
or the deployment timestamp is still unresolved, or the contract has no token
transfers, find_suspicious_wallets returns the empty report; the embedding is
total, so no error is raised in any of these cases. -/
theorem missing_prereq_empty_result :
    ∀ (chain : Chain) (s : AnalyzerState) (w : ℤ),
      ((resolveForScoring chain s).total_supply = none →
        (find_suspicious_wallets chain s w).2 = []) ∧
      ((resolveForScoring chain s).creation_timestamp = none →
        (find_suspicious_wallets chain s w).2 = []) ∧
      (get_token_transfers chain (resolveForScoring chain s).contract_address none = [] →
        (find_suspicious_wallets chain s w).2 = []) := by
  intro chain s w
  refine ⟨?_, ?_, ?_⟩
  · intro h
    simp [find_suspicious_wallets, h]
  · intro h
    cases hsup : (resolveForScoring chain s).total_supply with
    | none => simp [find_suspicious_wallets, hsup]
    | some sup => simp [find_suspicious_wallets, hsup, h]
  · intro h
    cases hsup : (resolveForScoring chain s).total_supply with
    | none => simp [find_suspicious_wallets, hsup]
    | some sup =>
        cases hts : (resolveForScoring chain s).creation_timestamp with
        | none => simp [find_suspicious_wallets, hsup, hts]
        | some ts => simp [find_suspicious_wallets, hsup, hts, h]

/-- C6 witness: a provider failing every query leaves the supply and the
timestamp unresolved and the transfer list empty, and the report is empty. -/
theorem missing_prereq_empty_result_witness :
    (resolveForScoring emptyChain (initAnalyzer "c")).total_supply = none ∧
    (resolveForScoring emptyChain (initAnalyzer "c")).creation_timestamp = none ∧
    get_token_transfers emptyChain
      (resolveForScoring emptyChain (initAnalyzer "c")).contract_address none = [] ∧
    (find_suspicious_wallets emptyChain (initAnalyzer "c") 604800).2 = [] := by
  have h1 : (resolveForScoring emptyChain (initAnalyzer "c")).total_supply = none := by
    rw [emptyResolve]
    rfl
  refine ⟨h1, by rw [emptyResolve]; rfl, by rw [emptyResolve]; rfl, ?_⟩
  exact (missing_prereq_empty_result emptyChain (initAnalyzer "c") 604800).1 h1

/-- C7: for every query kind, a reply whose envelope carries a status other
than 1 yields the empty result from the request helper, which is total and
therefore never raises; the empty result is the same value a successful reply
with an empty payload yields, so callers cannot tell the two apart. -/
theorem api_failure_empty :
    ∀ status : String, status ≠ "1" →
      (∀ (α : Type) (result : List α),
        make_api_request status result = [] ∧
        make_api_request status result = make_api_request "1" ([] : List α)) ∧
      (∀ (α : Type) (result : Option α),
        make_api_request_scalar status result = none ∧
        make_api_request_scalar status result = make_api_request_scalar "1" (none : Option α)) := by
  intro status h
  constructor
  · intro α result
    simp [make_api_request, h]
  · intro α result
    simp [make_api_request_scalar, h]

/-- C7 witness: a failure status with a non-empty payload still yields the
empty result. -/
theorem api_failure_empty_witness :
    make_api_request "0" [(1 : ℕ)] = [] ∧
    make_api_request_scalar "0" (some (1 : ℚ)) = none :=
  ⟨((api_failure_empty "0" (by decide)).1 ℕ [1]).1,
   ((api_failure_empty "0" (by decide)).2 ℚ (some 1)).1⟩

/-- C8: resolving the contract context twice against an unchanged provider is
idempotent for the creation lookup, the supply lookup and the funding
analysis, and once the supply and timestamp fields are truthy a further
find_suspicious_wallets call leaves the whole state untouched. -/
theorem context_resolution_idempotent :
    (∀ (chain : Chain) (s : AnalyzerState),
       get_contract_creation_tx chain ((get_contract_creation_tx chain s).1) =
         get_contract_creation_tx chain s) ∧
    (∀ (chain : Chain) (s : AnalyzerState),
       get_token_supply chain ((get_token_supply chain s).1) = get_token_supply chain s) ∧
    (∀ (chain : Chain) (s : AnalyzerState),
       analyze_funding_transactions chain ((analyze_funding_transactions chain s).1) =
         analyze_funding_transactions chain s) ∧
    (∀ (chain : Chain) (s : AnalyzerState) (w : ℤ),
       ratTruthy s.total_supply = true → intTruthy s.creation_timestamp = true →
       (find_suspicious_wallets chain s w).1 = s) :=
  ⟨get_contract_creation_tx_idem, get_token_supply_idem, analyze_funding_idem,
   fun chain s w h1 h2 => by
     rw [find_suspicious_fst]
     exact resolveForScoring_resolved h1 h2⟩

/-- C8 witness: the idempotence clauses instantiated on the example chain. -/
theorem context_resolution_idempotent_witness :
    get_contract_creation_tx exChain ((get_contract_creation_tx exChain (initAnalyzer "c")).1) =
      get_contract_creation_tx exChain (initAnalyzer "c") ∧
    get_token_supply exChain ((get_token_supply exChain (initAnalyzer "c")).1) =
      get_token_supply exChain (initAnalyzer "c") ∧
    analyze_funding_transactions exChain ((analyze_funding_transactions exChain exState1).1) =
      analyze_funding_transactions exChain exState1 ∧
    (find_suspicious_wallets exChain exState2 604800).1 = exState2 :=
  ⟨context_resolution_idempotent.1 exChain (initAnalyzer "c"),
   context_resolution_idempotent.2.1 exChain (initAnalyzer "c"),
   context_resolution_idempotent.2.2.1 exChain exState1,
   context_resolution_idempotent.2.2.2 exChain exState2 604800
     (by norm_num [exState2, ratTruthy]) (by norm_num [exState2, intTruthy])⟩

/-- Token contract with no decimal column, for the C9 witness. -/
def exTransferNoDec : TokenTransfer :=
  { hash := "n1", fromAddr := "c2", toAddr := "w", value := 5, timeStamp := 100,
    tokenDecimal := none, contractAddress := "c2" }

def exChainNoDec : Chain :=
  { creationStatus := fun _ => "0"
    creationResult := fun _ => []
    txlistStatus := fun _ => "0"
    txlistResult := fun _ => []
    tokentxStatus := fun _ _ => "1"
    tokenLedger := [exTransferNoDec]
    supplyStatus := fun _ => "0"
    supplyResult := fun _ => none }

/-- C9: token transfer values are scaled at ingestion by the decimal count
read from the first record of the fetched batch, with 18 as the default when
the decimal column is absent, whereas the total supply is always scaled by 18
decimals (the literal 1e18 of the source) regardless of the decimal counts in
the ledger. -/
theorem decimal_scaling :
    (∀ (chain : Chain) (c : String) (w : Option String) (t0 : TokenTransfer)
        (rest : List TokenTransfer), tokentxFetch chain c w = t0 :: rest →
        get_token_transfers chain c w =
          (t0 :: rest).map
            (fun t => { t with value := t.value / 10 ^ (t0.tokenDecimal.getD 18) })) ∧
    (∀ (chain : Chain) (c : String) (w : Option String) (t0 : TokenTransfer)
        (rest : List TokenTransfer), tokentxFetch chain c w = t0 :: rest →
        t0.tokenDecimal = none →
        get_token_transfers chain c w =
          (t0 :: rest).map (fun t => { t with value := t.value / 10 ^ 18 })) ∧
    (∀ (chain : Chain) (s : AnalyzerState) (raw : ℚ),
        supplyFetch chain s.contract_address = some raw →
        (get_token_supply chain s).2 = some (raw / 1000000000000000000) ∧
        ((get_token_supply chain s).1).total_supply = some (raw / 1000000000000000000)) ∧
    (1000000000000000000 : ℚ) = 10 ^ 18 := by
  refine ⟨?_, ?_, ?_, by norm_num⟩
  · intro chain c w t0 rest h
    simp [get_token_transfers, h]
  · intro chain c w t0 rest h hnone
    simp [get_token_transfers, h, hnone]
  · intro chain s raw h
    simp [get_token_supply, h]

/-- C9 witness: scaling on the example chains, with a present decimal column,
an absent decimal column, and the supply of the analyzed contract. -/
theorem decimal_scaling_witness :
    get_token_transfers exChain "c" (some "w") =
      [exTransfer].map
        (fun t => { t with value := t.value / 10 ^ (exTransfer.tokenDecimal.getD 18) }) ∧
    get_token_transfers exChainNoDec "c2" none =
      [exTransferNoDec].map (fun t => { t with value := t.value / 10 ^ 18 }) ∧
    (get_token_supply exChain (initAnalyzer "c")).2 =
      some (1000000000000000000000000 / 1000000000000000000) :=
  ⟨decimal_scaling.1 exChain "c" (some "w") exTransfer []
      (by simp [tokentxFetch, make_api_request, exChain, exTransfer, exOtherTransfer,
        List.filter]),
   decimal_scaling.2.1 exChainNoDec "c2" none exTransferNoDec []
      (by simp [tokentxFetch, make_api_request, exChainNoDec, exTransferNoDec, List.filter])
      rfl,
   (decimal_scaling.2.2.1 exChain (initAnalyzer "c") 1000000000000000000000000
      (by simp [supplyFetch, make_api_request_scalar, exChain, initAnalyzer, lowerStr,
        lowerChar])).1⟩

/-- Chain for the C10 witness: the wallet z has an earliest native transaction
at unix time exactly 0. -/
def zeroTx : Tx :=
  { hash := "hz", fromAddr := "f", toAddr := "z", value := 0, timeStamp := 0, blockNumber := 3 }

def exChainZero : Chain :=
  { creationStatus := fun _ => "0"
    creationResult := fun _ => []
    txlistStatus := fun _ => "1"
    txlistResult := fun a => if a = "z" then [zeroTx] else []
    tokentxStatus := fun _ _ => "1"
    tokenLedger := []
    supplyStatus := fun _ => "0"
    supplyResult := fun _ => none }

/-- C10: for a wallet whose earliest native transaction has unix timestamp
exactly 0, get_wallet_creation_time returns the timestamp 0 rather than the
unknown marker, yet find_suspicious_wallets never reports the wallet, because
the scorer tests the truthiness of the timestamp and 0 is falsy. -/
theorem zero_timestamp_excluded :
    ∀ (chain : Chain) (wallet : String) (t : Tx) (rest : List Tx),
      chain.txlistStatus wallet = "1" → chain.txlistResult wallet = t :: rest →
      t.timeStamp = 0 →
      (get_wallet_creation_time chain wallet).1 = some 0 ∧
      ∀ (s : AnalyzerState) (w : ℤ) (f : Finding),
        f ∈ (find_suspicious_wallets chain s w).2 → f.wallet ≠ wallet := by
  intro chain wallet t rest hst hres hts
  have hct : (get_wallet_creation_time chain wallet).1 = some 0 := by
    simp [get_wallet_creation_time, get_eth_transactions, make_api_request, hst, hres, hts]
  refine ⟨hct, ?_⟩
  intro s w f hf hwe
  obtain ⟨sup, ts, wallet0, hsup, htsr, hscore⟩ := mem_find_suspicious hf
  obtain ⟨hw0, htx, ct, hcteq, hct0, hrest⟩ := scoreWallet_some_spec hscore
  have hwall : wallet0 = wallet := by rw [← hw0, hwe]
  rw [hwall, hct] at hcteq
  exact hct0 (Option.some.inj hcteq).symm

/-- C10 witness: the zero-timestamp wallet on the dedicated chain. -/
theorem zero_timestamp_excluded_witness :
    (get_wallet_creation_time exChainZero "z").1 = some 0 ∧
    ∀ (s : AnalyzerState) (w : ℤ) (f : Finding),
      f ∈ (find_suspicious_wallets exChainZero s w).2 → f.wallet ≠ "z" :=
  zero_timestamp_excluded exChainZero "z" zeroTx [] rfl (by simp [exChainZero]) rfl

end EthTracker
